import Mathlib

/-!
# Verification of the FCC BDC availability-export pipeline (src/streamlit_app.py)

Shallow embedding of the polars dataframe pipeline in the Streamlit app:
rows are association lists from column names to values, a `Frame` is a
column schema plus a list of rows, and each polars operation used by the
pipeline (`filter` on a column, `group_by(...).agg(n_unique/max/sum)`,
`with_columns` string truncation, the final `pivot` with sum aggregation)
is embedded as an executable Lean function.  Fallible polars operations
(referencing a missing column raises `ColumnNotFoundError`) are embedded
with `Except`.
-/

/-- A cell value: polars string (`Utf8`) or integer column entries as they
occur in the availability CSVs. -/
inductive Value where
  | s (str : String)
  | i (int : Int)
deriving DecidableEq

/-- One dataframe row: an association list from column name to cell value. -/
abbrev Row := List (String × Value)

/-- Look a column value up in a row (first binding wins). -/
def rowGet (r : Row) (c : String) : Option Value :=
  (r.find? (fun p => p.1 == c)).map (fun p => p.2)

/-- Embedding of a polars DataFrame: the column schema plus the rows. -/
structure Frame where
  cols : List String
  rows : List Row
deriving DecidableEq

/-- Integer read of an optional cell, `0` for absent or non-integer cells
(the count column produced by `n_unique` is always an integer). -/
def intOf : Option Value → Int
  | some (Value.i n) => n
  | _ => 0

/-- The tuple of key-column values of a row, as polars `group_by(keys)` keys it. -/
def keyTuple (keys : List String) (r : Row) : List (Option Value) :=
  keys.map (fun k => rowGet r k)

/-- Rebuild the key part of a group row from its key tuple. -/
def buildKeyRow (keys : List String) (kv : List (Option Value)) : Row :=
  (keys.zip kv).filterMap (fun p => p.2.map (fun v => (p.1, v)))

/-- Cell of the final wide `pivot(values=c, index/columns=keys, aggregate_function="sum")`:
the sum of column `c` over all rows whose key tuple is `kv`.  This is exactly the
per-geoid (and per pivot-column) total the merged export reports. -/
def pivotCell (keys : List String) (c : String) (kv : List (Option Value)) (rows : List Row) : Int :=
  ((rows.filter (fun r => decide (keyTuple keys r = kv))).map (fun r => intOf (rowGet r c))).sum

/-- Embedding of `group_by(keys).agg(pl.col(c).sum())` on the row list: one output
row per distinct key tuple (polars keeps the aggregated column's name `c`). -/
def rowsGroupSum (keys : List String) (c : String) (rows : List Row) : List Row :=
  ((rows.map (keyTuple keys)).dedup).map
    (fun kv => buildKeyRow keys kv ++ [(c, Value.i (pivotCell keys c kv rows))])

/-- Count of distinct values of column `c` among the given rows
(`pl.col(c).n_unique()`). -/
def nUnique (c : String) (rows : List Row) : Int :=
  ((rows.filterMap (fun r => rowGet r c)).dedup).length

/-- Embedding of `group_by(keys).agg(pl.col(c).n_unique())` on the row list.
Note that polars keeps the source column name `c` for the aggregated count. -/
def rowsGroupNUnique (keys : List String) (c : String) (rows : List Row) : List Row :=
  ((rows.map (keyTuple keys)).dedup).map
    (fun kv => buildKeyRow keys kv ++
      [(c, Value.i (nUnique c (rows.filter (fun r => decide (keyTuple keys r = kv)))))])

/-- Embedding of `df.filter(pred on df[c])`: polars raises `ColumnNotFoundError`
when the referenced column is absent; a null comparison result drops the row. -/
def Frame.filterCol (df : Frame) (c : String) (p : Value → Bool) : Except String Frame :=
  if c ∈ df.cols then
    Except.ok ⟨df.cols, df.rows.filter (fun r =>
      match rowGet r c with
      | some v => p v
      | none => false)⟩
  else
    Except.error ("ColumnNotFoundError: " ++ c)

/-- Embedding of `df.group_by(keys).agg(pl.col(c).n_unique())` at the frame level:
missing key or aggregation columns raise; the output schema is the key columns
followed by the count column, which keeps the name `c`. -/
def Frame.groupByNUnique (df : Frame) (keys : List String) (c : String) : Except String Frame :=
  if (keys.all (fun k => decide (k ∈ df.cols)) && decide (c ∈ df.cols)) then
    Except.ok ⟨keys ++ [c], rowsGroupNUnique keys c df.rows⟩
  else
    Except.error "ColumnNotFoundError"

/-- Embedding of lines 357-361: `if resi_choice == "y": df.filter(df["business_residential_code"] != "B")`.
The stage runs only when the flag is set; it references the column unconditionally. -/
def residentialFilter (resiFlag : Bool) (df : Frame) : Except String Frame :=
  if resiFlag then
    df.filterCol "business_residential_code" (fun v => decide (v ≠ Value.s "B"))
  else
    Except.ok df

/-- Membership of a cell value in a python list of ints, as `Series.is_in` sees it
(`provider_id` integer cells match, string cells never match an int list). -/
def isInIntList (v : Value) (l : List Int) : Bool :=
  match v with
  | Value.i n => l.contains n
  | Value.s _ => false

/-- Embedding of lines 374-377: `if excluded_provider_ids: df.filter(~df["provider_id"].is_in(ids))`.
Runs only for a non-empty exclusion list; references `provider_id` unconditionally. -/
def providerExclusion (excluded : List Int) (df : Frame) : Except String Frame :=
  if excluded = [] then
    Except.ok df
  else
    df.filterCol "provider_id" (fun v => !(isInIntList v excluded))

/-- Embedding of the final grouping branches, lines 386-397: the
`group_on_technology` branch is tested first, then `group_on_speed`, then the
default `(provider_id, block_geoid)` grouping. -/
def finalGrouping (group_on_technology group_on_speed : Bool) (df : Frame) : Except String Frame :=
  if group_on_technology then
    df.groupByNUnique ["block_geoid"] "location_id"
  else if group_on_speed then
    df.groupByNUnique ["provider_id", "block_geoid", "max_advertised_download_speed"] "location_id"
  else
    df.groupByNUnique ["provider_id", "block_geoid"] "location_id"

/-- Embedding of `_block_geoid_prefix_len` (lines 36-48). -/
def blockGeoidPrefixLen (level : String) : Nat :=
  let l := level.toLower.trim
  if l = "state" then 2
  else if l = "county" then 5
  else if l = "tract" then 11
  else if l = "cbg" ∨ l = "block group" ∨ l = "blockgroup" then 12
  else 15

/-- Render a cell as polars `cast(pl.Utf8)` does for the cell types we model. -/
def valueToString : Value → String
  | Value.s str => str
  | Value.i int => toString int

/-- Truncate a cell to its first `n` characters after casting to string
(`pl.col("block_geoid").cast(pl.Utf8).str.slice(0, n)`). -/
def truncVal (n : Nat) (v : Value) : Value :=
  Value.s ((valueToString v).take n)

/-- Replace the `block_geoid` cell of one row by its `n`-character truncation. -/
def rowTrunc (n : Nat) (r : Row) : Row :=
  r.map (fun p => if p.1 = "block_geoid" then (p.1, truncVal n p.2) else p)

/-- Embedding of lines 419-421: rewrite the `block_geoid` column of every row to
its geography-level string truncation. -/
def rowsTruncGeoid (n : Nat) (rows : List Row) : List Row :=
  rows.map (rowTrunc n)

/-- Embedding of line 425 and line 471: `pivot_needed = (group_on_technology == "n") or (group_on_speed == "y")`
(the same expression is computed in the rollup stage and again in the merge stage). -/
def pivot_needed (group_on_technology group_on_speed : Bool) : Bool :=
  (!group_on_technology) || group_on_speed

/-- Render an optional cell for the composite-key concatenation. -/
def optValueToString : Option Value → String
  | some v => valueToString v
  | none => "null"

/-- Embedding of lines 431-437: append the synthesized
`provider_speed = provider_id + "_" + max_advertised_download_speed` column. -/
def addProviderSpeed (r : Row) : Row :=
  r ++ [("provider_speed",
    Value.s (optValueToString (rowGet r "provider_id") ++ "_" ++
      optValueToString (rowGet r "max_advertised_download_speed")))]

/-- Embedding of the per-state rollup pre-aggregation, lines 409-450: check the
required columns, truncate `block_geoid`, then pre-sum the count column
(named `location_id` by the earlier `n_unique` aggregation) under the key
selected by `pivot_needed` and the available columns. -/
def rollupState (group_on_technology group_on_speed : Bool) (level : String) (df : Frame) :
    Except String Frame :=
  if "block_geoid" ∉ df.cols then
    Except.error "Cannot roll up: block_geoid column is missing"
  else if "location_id" ∉ df.cols then
    Except.error "Cannot roll up: count column location_id is missing"
  else
    let n := blockGeoidPrefixLen level
    let rows := rowsTruncGeoid n df.rows
    if pivot_needed group_on_technology group_on_speed && decide ("provider_id" ∈ df.cols) then
      if (!group_on_technology) && group_on_speed &&
          decide ("max_advertised_download_speed" ∈ df.cols) then
        Except.ok ⟨["block_geoid", "provider_speed", "location_id"],
          rowsGroupSum ["block_geoid", "provider_speed"] "location_id" (rows.map addProviderSpeed)⟩
      else
        Except.ok ⟨["block_geoid", "provider_id", "location_id"],
          rowsGroupSum ["block_geoid", "provider_id"] "location_id" rows⟩
    else
      Except.ok ⟨["block_geoid", "location_id"],
        rowsGroupSum ["block_geoid"] "location_id" rows⟩

/-- True when a row's `technology_code_desc` cell is one of the given technology
names (the secondary download keeps exactly the listing rows for these
technologies, and each downloaded file's rows carry that technology). -/
def techMatch (techs : List String) (r : Row) : Bool :=
  match rowGet r "technology_code_desc" with
  | some (Value.s t) => techs.contains t
  | _ => false

/-- Embedding of the secondary provider-footprint download, lines 336-351:
of all availability rows of the state, keep those whose technology is in the
chosen list (one file per listed technology, vstacked). -/
def fetchTechRows (techs : List String) (rows : List Row) : List Row :=
  rows.filter (techMatch techs)

/-- The default technology triple used when no explicit subset is chosen
(line 335). -/
def defaultTechTriple : List String :=
  ["Cable", "Copper", "Fiber to the Premises"]

/-- Embedding of lines 332-335: the technology list that populates the
secondary footprint dataset is the chosen subset, or the default triple when
no subset was given. -/
def effectiveTechList (subset : Option (List String)) : List String :=
  subset.getD defaultTechTriple

/-- True when the row's `provider_id` cell is one of the anchor provider ids
(`df["provider_id"].is_in(location_provider_ids)`). -/
def providerMatch (providerIds : List Int) (r : Row) : Bool :=
  match rowGet r "provider_id" with
  | some v => isInIntList v providerIds
  | none => false

/-- Embedding of lines 365-367: the distinct `location_id` values of the rows
whose `provider_id` is among the anchor providers
(`subset_df.filter(provider_id.is_in(P))["location_id"].unique()`). -/
def resolveLocIds (providerIds : List Int) (rows : List Row) : List Value :=
  ((rows.filter (providerMatch providerIds)).filterMap
    (fun r => rowGet r "location_id")).dedup

/-- The full location-set resolution of lines 329-367 for one state: fetch the
secondary footprint dataset for the effective technology list, then take the
distinct anchor-provider locations of it. -/
def locationSetResolution (subset : Option (List String)) (providerIds : List Int)
    (rows : List Row) : List Value :=
  resolveLocIds providerIds (fetchTechRows (effectiveTechList subset) rows)

/-- Row-level residential keep-predicate: `business_residential_code != "B"`
with the polars null semantics (a row without the cell is dropped). -/
def resiKeep (r : Row) : Bool :=
  match rowGet r "business_residential_code" with
  | some v => decide (v ≠ Value.s "B")
  | none => false

/-- Row-level residential filter (the frame-level stage applies exactly this to
the rows when the column is present). -/
def rowsResiFilter (rows : List Row) : List Row :=
  rows.filter resiKeep

/-- True when the row's `location_id` cell belongs to the resolved location set
(`df["location_id"].is_in(loc_ids)`). -/
def locMember (locIds : List Value) (r : Row) : Bool :=
  match rowGet r "location_id" with
  | some v => locIds.contains v
  | none => false

/-- Embedding of lines 356-371 at the row level: the residential filter is
applied to the primary rows and to the secondary footprint rows, then, when
anchor providers are given, the location set is derived from the (already
filtered) secondary rows and the primary rows are restricted to it. -/
def applyScopeFilters (resiFlag : Bool) (anchorIds : List Int)
    (primary secondary : List Row) : List Row :=
  if anchorIds = [] then
    (if resiFlag then rowsResiFilter primary else primary)
  else
    (if resiFlag then rowsResiFilter primary else primary).filter
      (locMember (resolveLocIds anchorIds
        (if resiFlag then rowsResiFilter secondary else secondary)))

/-- Decidable equality for the pipeline results, used to evaluate the
embedding on concrete inputs. -/
instance : DecidableEq (Except String Frame) :=
  fun a b =>
    match a, b with
    | Except.ok x, Except.ok y =>
        if h : x = y then isTrue (by rw [h]) else isFalse (fun hh => h (Except.ok.inj hh))
    | Except.error x, Except.error y =>
        if h : x = y then isTrue (by rw [h]) else isFalse (fun hh => h (Except.error.inj hh))
    | Except.ok _, Except.error _ => isFalse (fun hh => Except.noConfusion hh)
    | Except.error _, Except.ok _ => isFalse (fun hh => Except.noConfusion hh)

/-- The geography key a row contributes after truncation: its `block_geoid`
cell truncated to `n` characters. -/
def geoKey (n : Nat) (r : Row) : Option Value :=
  (rowGet r "block_geoid").map (truncVal n)

/-- Aggregated single-state table for the first partition block: one county-01001
row with count 3. -/
def exStateA : List Row :=
  [[("block_geoid", Value.s "010010201001"), ("provider_id", Value.i 111),
    ("location_id", Value.i 3)]]

/-- Aggregated single-state table for the second partition block: one county-02001
row with count 2 (disjoint geoid prefix from `exStateA`). -/
def exStateB : List Row :=
  [[("block_geoid", Value.s "020010201001"), ("provider_id", Value.i 111),
    ("location_id", Value.i 2)]]

/-- An aggregated frame with all columns of the speed branch present. -/
def exFrameC2 : Frame :=
  ⟨["provider_id", "block_geoid", "location_id", "max_advertised_download_speed"],
   [[("provider_id", Value.i 111), ("block_geoid", Value.s "010010201001"),
     ("location_id", Value.s "A"), ("max_advertised_download_speed", Value.i 100)]]⟩

/-- A frame lacking both `business_residential_code` and `provider_id`. -/
def exFrameC4 : Frame :=
  ⟨["location_id"], [[("location_id", Value.s "A")]]⟩

/-- One anchor-provider row whose technology is outside the default triple. -/
def exWirelessRow : Row :=
  [("provider_id", Value.i 111), ("location_id", Value.s "A"),
   ("technology_code_desc", Value.s "Licensed Fixed Wireless")]

/-- One anchor-provider row with a default-triple technology. -/
def exCableRow : Row :=
  [("provider_id", Value.i 111), ("location_id", Value.s "A"),
   ("technology_code_desc", Value.s "Cable")]

/-- A frame for the technology-only grouping with one row. -/
def exFrameC7 : Frame :=
  ⟨["provider_id", "block_geoid", "location_id"],
   [[("provider_id", Value.i 111), ("block_geoid", Value.s "010010201001"),
     ("location_id", Value.s "A")]]⟩

/-- The technology-only grouping output for `exFrameC7`: the count column keeps
the name `location_id`. -/
def exOutC7 : Frame :=
  ⟨["block_geoid", "location_id"],
   [[("block_geoid", Value.s "010010201001"), ("location_id", Value.i 1)]]⟩

/-- A frame with residential, business and mixed rows for the residential filter. -/
def exFrameC8 : Frame :=
  ⟨["business_residential_code", "location_id"],
   [[("business_residential_code", Value.s "B"), ("location_id", Value.s "A")],
    [("business_residential_code", Value.s "R"), ("location_id", Value.s "C")],
    [("business_residential_code", Value.s "X"), ("location_id", Value.s "D")]]⟩

/-- The three-row scenario of the spec: location A appears under providers 111
and 222 in block 010010201001, location B under provider 111 in block
010010201002. -/
def exFrameC9 : Frame :=
  ⟨["provider_id", "block_geoid", "location_id", "technology_code_desc"],
   [[("provider_id", Value.i 111), ("block_geoid", Value.s "010010201001"),
     ("location_id", Value.s "A"), ("technology_code_desc", Value.s "Fiber to the Premises")],
    [("provider_id", Value.i 222), ("block_geoid", Value.s "010010201001"),
     ("location_id", Value.s "A"), ("technology_code_desc", Value.s "Cable")],
    [("provider_id", Value.i 111), ("block_geoid", Value.s "010010201002"),
     ("location_id", Value.s "B"), ("technology_code_desc", Value.s "Fiber to the Premises")]]⟩

/-- Expected technology-only grouping of `exFrameC9`: each block counts one
distinct location (A is de-duplicated across its two providers). -/
def exOutC9 : Frame :=
  ⟨["block_geoid", "location_id"],
   [[("block_geoid", Value.s "010010201001"), ("location_id", Value.i 1)],
    [("block_geoid", Value.s "010010201002"), ("location_id", Value.i 1)]]⟩

/-- Secondary footprint rows where anchor provider 111 serves location A only
through a business-only row. -/
def exSecondaryC10 : List Row :=
  [[("provider_id", Value.i 111), ("location_id", Value.s "A"),
    ("business_residential_code", Value.s "B")]]

/-- Primary rows containing a residential row of another provider at location A. -/
def exPrimaryC10 : List Row :=
  [[("provider_id", Value.i 222), ("location_id", Value.s "A"),
    ("business_residential_code", Value.s "R")]]

/-! ## Supporting lemmas about the embedded operations -/

theorem rowGet_cons_self (k : String) (v : Value) (r : Row) :
    rowGet ((k, v) :: r) k = some v := by
  unfold rowGet
  rw [List.find?_cons_of_pos _ (by simp)]
  rfl

theorem rowGet_cons_ne (k2 k : String) (h : k2 ≠ k) (v : Value) (r : Row) :
    rowGet ((k2, v) :: r) k = rowGet r k := by
  unfold rowGet
  rw [List.find?_cons_of_neg _ (by simpa using h)]

theorem rowGet_eq_none (r : Row) (k : String) (h : ∀ p ∈ r, p.1 ≠ k) :
    rowGet r k = none := by
  unfold rowGet
  rw [List.find?_eq_none.mpr]
  · rfl
  · intro p hp
    simpa using h p hp

theorem buildKeyRow_nil_left (kv : List (Option Value)) : buildKeyRow [] kv = [] := by
  simp [buildKeyRow]

theorem buildKeyRow_nil_right (keys : List String) : buildKeyRow keys [] = [] := by
  simp [buildKeyRow]

theorem buildKeyRow_cons_none (k : String) (ks : List String) (ovs : List (Option Value)) :
    buildKeyRow (k :: ks) (none :: ovs) = buildKeyRow ks ovs := by
  simp [buildKeyRow]

theorem buildKeyRow_cons_some (k : String) (ks : List String) (v0 : Value)
    (ovs : List (Option Value)) :
    buildKeyRow (k :: ks) (some v0 :: ovs) = (k, v0) :: buildKeyRow ks ovs := by
  simp [buildKeyRow]

theorem buildKeyRow_names (keys : List String) (kv : List (Option Value)) :
    ∀ p ∈ buildKeyRow keys kv, p.1 ∈ keys := by
  intro p hp
  unfold buildKeyRow at hp
  rw [List.mem_filterMap] at hp
  obtain ⟨q, hq, he⟩ := hp
  rcases q with ⟨k1, ov⟩
  cases ov with
  | none => simp at he
  | some v0 =>
    simp only [Option.map_some'] at he
    rw [Option.some_inj] at he
    rw [← he]
    exact (List.of_mem_zip hq).1

theorem keyTuple_cons (k : String) (keys : List String) (r : Row) :
    keyTuple (k :: keys) r = rowGet r k :: keyTuple keys r := rfl

theorem keyTuple_cons_head_irrel (keys : List String) (k : String) (hk : k ∉ keys)
    (v0 : Value) (rest : Row) :
    keyTuple keys ((k, v0) :: rest) = keyTuple keys rest := by
  unfold keyTuple
  apply List.map_congr_left
  intro k2 hk2
  exact rowGet_cons_ne k k2 (fun he => hk (he ▸ hk2)) v0 rest

theorem rowGet_buildKeyRow_val (keys : List String) (kv : List (Option Value))
    (c : String) (v : Value) (hc : c ∉ keys) :
    rowGet (buildKeyRow keys kv ++ [(c, v)]) c = some v := by
  induction keys generalizing kv with
  | nil =>
    rw [buildKeyRow_nil_left, List.nil_append]
    exact rowGet_cons_self c v []
  | cons k ks ih =>
    have hcks : c ∉ ks := fun hm => hc (List.mem_cons_of_mem k hm)
    cases kv with
    | nil =>
      rw [buildKeyRow_nil_right, List.nil_append]
      exact rowGet_cons_self c v []
    | cons ov ovs =>
      cases ov with
      | none =>
        rw [buildKeyRow_cons_none]
        exact ih ovs hcks
      | some v0 =>
        have hck : k ≠ c := fun he => hc (he ▸ List.mem_cons_self k ks)
        rw [buildKeyRow_cons_some, List.cons_append, rowGet_cons_ne k c hck]
        exact ih ovs hcks

theorem keyTuple_buildKeyRow (keys : List String) (kv : List (Option Value))
    (c : String) (v : Value) (hnd : keys.Nodup) (hc : c ∉ keys)
    (hlen : kv.length = keys.length) :
    keyTuple keys (buildKeyRow keys kv ++ [(c, v)]) = kv := by
  induction keys generalizing kv with
  | nil =>
    have hkv : kv = [] := List.length_eq_zero.mp hlen
    subst hkv
    rfl
  | cons k ks ih =>
    rw [List.nodup_cons] at hnd
    have hck : k ≠ c := fun he => hc (he ▸ List.mem_cons_self k ks)
    have hcks : c ∉ ks := fun hm => hc (List.mem_cons_of_mem k hm)
    cases kv with
    | nil => simp at hlen
    | cons ov ovs =>
      have hlen2 : ovs.length = ks.length := by simpa using hlen
      cases ov with
      | some v0 =>
        rw [buildKeyRow_cons_some, List.cons_append, keyTuple_cons,
          rowGet_cons_self, keyTuple_cons_head_irrel ks k hnd.1 v0 _,
          ih ovs hnd.2 hcks hlen2]
      | none =>
        rw [buildKeyRow_cons_none, keyTuple_cons, ih ovs hnd.2 hcks hlen2]
        have hnone : rowGet (buildKeyRow ks ovs ++ [(c, v)]) k = none := by
          apply rowGet_eq_none
          intro p hp
          rw [List.mem_append] at hp
          cases hp with
          | inl hpl => exact fun he => hnd.1 (he ▸ buildKeyRow_names ks ovs p hpl)
          | inr hpr =>
            have : p = (c, v) := List.mem_singleton.mp hpr
            rw [this]
            exact fun he => hck he.symm
        rw [hnone]

theorem pivotCell_cons (keys : List String) (c : String) (kv : List (Option Value))
    (r : Row) (rows : List Row) :
    pivotCell keys c kv (r :: rows) =
      (if keyTuple keys r = kv then intOf (rowGet r c) else 0) + pivotCell keys c kv rows := by
  unfold pivotCell
  rw [List.filter_cons]
  by_cases h : keyTuple keys r = kv
  · simp [h]
  · simp [h]

theorem pivotCell_append (keys : List String) (c : String) (kv : List (Option Value))
    (l1 l2 : List Row) :
    pivotCell keys c kv (l1 ++ l2) = pivotCell keys c kv l1 + pivotCell keys c kv l2 := by
  unfold pivotCell
  rw [List.filter_append, List.map_append, List.sum_append]

theorem pivotCell_groups (keys : List String) (c : String) (kv : List (Option Value))
    (w : List (Option Value) → Int) (dk : List (List (Option Value)))
    (hnd : keys.Nodup) (hc : c ∉ keys) (hdk : dk.Nodup)
    (hlen : ∀ x ∈ dk, x.length = keys.length) :
    pivotCell keys c kv (dk.map (fun x => buildKeyRow keys x ++ [(c, Value.i (w x))])) =
      if kv ∈ dk then w kv else 0 := by
  induction dk with
  | nil => simp [pivotCell]
  | cons x xs ih =>
    rw [List.nodup_cons] at hdk
    rw [List.map_cons, pivotCell_cons]
    have hx : keyTuple keys (buildKeyRow keys x ++ [(c, Value.i (w x))]) = x :=
      keyTuple_buildKeyRow keys x c (Value.i (w x)) hnd hc (hlen x (List.mem_cons_self x xs))
    rw [hx, ih hdk.2 (fun y hy => hlen y (List.mem_cons_of_mem x hy))]
    by_cases hxkv : x = kv
    · subst hxkv
      rw [if_pos rfl, if_neg hdk.1, if_pos (List.mem_cons_self x xs),
        rowGet_buildKeyRow_val keys x c (Value.i (w x)) hc]
      simp [intOf]
    · have hkx : ¬ kv = x := fun he => hxkv he.symm
      rw [if_neg hxkv]
      simp [List.mem_cons, hkx]

theorem pivotCell_rowsGroupSum (keys : List String) (c : String)
    (hnd : keys.Nodup) (hc : c ∉ keys) (kv : List (Option Value)) (rows : List Row) :
    pivotCell keys c kv (rowsGroupSum keys c rows) = pivotCell keys c kv rows := by
  have hlen : ∀ x ∈ (rows.map (keyTuple keys)).dedup, x.length = keys.length := by
    intro x hx
    rw [List.mem_dedup] at hx
    obtain ⟨r, _, he⟩ := List.mem_map.mp hx
    rw [← he]
    simp [keyTuple]
  have h1 := pivotCell_groups keys c kv (fun x => pivotCell keys c x rows)
    ((rows.map (keyTuple keys)).dedup) hnd hc (List.nodup_dedup _) hlen
  by_cases hm : kv ∈ (rows.map (keyTuple keys)).dedup
  · rw [if_pos hm] at h1
    exact h1
  · rw [if_neg hm] at h1
    have h2 : pivotCell keys c kv rows = 0 := by
      unfold pivotCell
      have hfil : rows.filter (fun r => decide (keyTuple keys r = kv)) = [] := by
        rw [List.filter_eq_nil_iff]
        intro r hr
        simp only [decide_eq_true_eq]
        intro he
        rw [List.mem_dedup] at hm
        exact hm (he ▸ List.mem_map_of_mem (keyTuple keys) hr)
      rw [hfil]
      rfl
    rw [h2]
    exact h1

theorem rollup_partition_aux (keys : List String) (c : String) (n : Nat)
    (hnd : keys.Nodup) (hc : c ∉ keys) :
    ∀ (states : List (List Row)) (kv : List (Option Value)),
    pivotCell keys c kv
        ((states.map (fun s => rowsGroupSum keys c (rowsTruncGeoid n s))).flatten) =
      pivotCell keys c kv (rowsGroupSum keys c (rowsTruncGeoid n states.flatten)) := by
  intro states kv
  induction states with
  | nil =>
    simp only [List.map_nil, List.flatten_nil]
    rw [pivotCell_rowsGroupSum keys c hnd hc]
    rfl
  | cons s ss ih =>
    rw [List.map_cons, List.flatten_cons, pivotCell_append, ih,
      pivotCell_rowsGroupSum keys c hnd hc, pivotCell_rowsGroupSum keys c hnd hc,
      pivotCell_rowsGroupSum keys c hnd hc, List.flatten_cons]
    unfold rowsTruncGeoid
    rw [List.map_append, pivotCell_append]

/-! ## Claims -/

/-- C1: for every partition of the aggregated rows into per-state subsets whose
truncated `block_geoid` keys are pairwise disjoint, rolling up (prefix
truncation, then group-by with sum of the `location_id` count column) each
state separately and concatenating gives, after the final pivot's sum
aggregation, exactly the same per-geoid (and per pivot-key) totals as
concatenating everything first and rolling up the merged table once. -/
theorem claim_C1_rollup_partition (states : List (List Row)) (keys : List String)
    (n : Nat) (kv : List (Option Value))
    (hkeys : keys.Nodup) (hc : "location_id" ∉ keys)
    (hdisj : states.Pairwise (fun s1 s2 => ∀ r1 ∈ s1, ∀ r2 ∈ s2, geoKey n r1 ≠ geoKey n r2)) :
    pivotCell keys "location_id" kv
        ((states.map (fun s => rowsGroupSum keys "location_id" (rowsTruncGeoid n s))).flatten) =
      pivotCell keys "location_id" kv
        (rowsGroupSum keys "location_id" (rowsTruncGeoid n states.flatten)) :=
  rollup_partition_aux keys "location_id" n hkeys hc states kv

/-- Witness for C1 at a concrete two-state partition with disjoint county
prefixes, county-level rollup, and the provider pivot key. -/
theorem claim_C1_witness :
    pivotCell ["block_geoid", "provider_id"] "location_id"
        [some (Value.s "01001"), some (Value.i 111)]
        (([exStateA, exStateB].map
          (fun s => rowsGroupSum ["block_geoid", "provider_id"] "location_id"
            (rowsTruncGeoid 5 s))).flatten) =
      pivotCell ["block_geoid", "provider_id"] "location_id"
        [some (Value.s "01001"), some (Value.i 111)]
        (rowsGroupSum ["block_geoid", "provider_id"] "location_id"
          (rowsTruncGeoid 5 ([exStateA, exStateB].flatten))) :=
  claim_C1_rollup_partition [exStateA, exStateB] ["block_geoid", "provider_id"] 5
    [some (Value.s "01001"), some (Value.i 111)] (by decide) (by decide) (by decide)

/-- C3 counterexample: with both grouping flags set the code's pivot-needed
flag is `true`, not `false` as the claim states. -/
theorem claim_C3_counterexample : ¬ (pivot_needed true true = false) := by decide

/-- C3 amended: the pivot-needed flag equals `not group_on_technology or
group_on_speed`; it agrees with the claim only when `group_on_speed` is unset,
and it is `false` exactly when `group_on_technology` is set and
`group_on_speed` is unset. -/
theorem claim_C3_pivot_flag_amended :
    ∀ t s : Bool, pivot_needed t s = ((!t) || s)
      ∧ pivot_needed t false = (!t)
      ∧ (pivot_needed t s = false ↔ t = true ∧ s = false) := by decide

/-- C2: with both flags set the final grouping takes the technology-only
branch: it equals the `block_geoid`-only distinct-location grouping, its
successful schema is `[block_geoid, location_id]`, and it never matches the
speed-branch schema `[provider_id, block_geoid, max_advertised_download_speed,
location_id]`. -/
theorem claim_C2_grouping_precedence (df : Frame) :
    finalGrouping true true df = Frame.groupByNUnique df ["block_geoid"] "location_id"
    ∧ (finalGrouping true true df).map Frame.cols ≠
        Except.ok ["provider_id", "block_geoid", "max_advertised_download_speed", "location_id"]
    ∧ ("block_geoid" ∈ df.cols → "location_id" ∈ df.cols →
        (finalGrouping true true df).map Frame.cols = Except.ok ["block_geoid", "location_id"]) := by
  refine ⟨rfl, ?_, ?_⟩
  · have h : finalGrouping true true df = Frame.groupByNUnique df ["block_geoid"] "location_id" := rfl
    rw [h]
    unfold Frame.groupByNUnique
    split
    · simp [Except.map]
    · simp [Except.map]
  · intro h1 h2
    have h : finalGrouping true true df = Frame.groupByNUnique df ["block_geoid"] "location_id" := rfl
    rw [h]
    simp [Frame.groupByNUnique, h1, h2, Except.map]

/-- Witness for C2 at a concrete frame carrying all speed-branch columns. -/
theorem claim_C2_witness :
    (finalGrouping true true exFrameC2).map Frame.cols = Except.ok ["block_geoid", "location_id"] :=
  (claim_C2_grouping_precedence exFrameC2).2.2 (by decide) (by decide)

/-- C7 counterexample: the technology-only grouping output of a concrete frame
carries its distinct-location count under the column name `location_id`; no
column named `n_unique_locations` exists. -/
theorem claim_C7_counterexample :
    finalGrouping true false exFrameC7 = Except.ok exOutC7 ∧
      "n_unique_locations" ∉ exOutC7.cols := by decide

/-- C7 amended: the technology-only grouping output schema is
`[block_geoid, location_id]` — polars `n_unique` keeps the aggregated column's
source name, so the distinct-location count is carried in the column named
`location_id`, never in one named `n_unique_locations`. -/
theorem claim_C7_count_column_amended (df : Frame) (s : Bool) :
    ("block_geoid" ∈ df.cols → "location_id" ∈ df.cols →
      (finalGrouping true s df).map Frame.cols = Except.ok ["block_geoid", "location_id"])
    ∧ (finalGrouping true s df).map Frame.cols ≠ Except.ok ["block_geoid", "n_unique_locations"] := by
  constructor
  · intro h1 h2
    show (Frame.groupByNUnique df ["block_geoid"] "location_id").map Frame.cols = _
    simp [Frame.groupByNUnique, h1, h2, Except.map]
  · show (Frame.groupByNUnique df ["block_geoid"] "location_id").map Frame.cols ≠ _
    unfold Frame.groupByNUnique
    split
    · simp [Except.map]
    · simp [Except.map]

/-- Witness for C7's amended statement at a concrete frame. -/
theorem claim_C7_witness :
    (finalGrouping true false exFrameC7).map Frame.cols = Except.ok ["block_geoid", "location_id"] :=
  (claim_C7_count_column_amended exFrameC7 false).1 (by decide) (by decide)

/-- C9: on the three-row scenario, technology-only grouping de-duplicates by
`location_id`: block 010010201001 (location A under two providers) counts 1
distinct location and block 010010201002 counts 1. -/
theorem claim_C9_scenario : finalGrouping true false exFrameC9 = Except.ok exOutC9 := by decide

/-- C4 counterexample: on a concrete frame lacking `business_residential_code`
and `provider_id`, the enabled residential filter and the non-empty provider
exclusion do not pass the data through unchanged — they fail. -/
theorem claim_C4_counterexample :
    residentialFilter true exFrameC4 ≠ Except.ok exFrameC4 ∧
      providerExclusion [111] exFrameC4 ≠ Except.ok exFrameC4 := by decide

/-- C4 amended: when a column required by an enabled optional filter stage is
absent, the stage raises a column-not-found error instead of silently passing
the data through; the stages pass the data through unchanged only when they
are disabled (flag unset, or empty exclusion list). -/
theorem claim_C4_missing_column_amended (df : Frame) (excluded : List Int) :
    ("business_residential_code" ∉ df.cols →
      residentialFilter true df =
        Except.error ("ColumnNotFoundError: " ++ "business_residential_code"))
    ∧ (excluded ≠ [] → "provider_id" ∉ df.cols →
      providerExclusion excluded df =
        Except.error ("ColumnNotFoundError: " ++ "provider_id"))
    ∧ residentialFilter false df = Except.ok df
    ∧ providerExclusion [] df = Except.ok df := by
  refine ⟨?_, ?_, rfl, rfl⟩
  · intro h
    simp [residentialFilter, Frame.filterCol, h]
  · intro hne h
    simp [providerExclusion, Frame.filterCol, h, hne]

/-- Witness for C4's amended statement at the concrete column-free frame. -/
theorem claim_C4_witness :
    residentialFilter true exFrameC4 =
        Except.error ("ColumnNotFoundError: " ++ "business_residential_code") ∧
      providerExclusion [111] exFrameC4 =
        Except.error ("ColumnNotFoundError: " ++ "provider_id") :=
  ⟨(claim_C4_missing_column_amended exFrameC4 [111]).1 (by decide),
   (claim_C4_missing_column_amended exFrameC4 [111]).2.1 (by decide) (by decide)⟩

theorem resolution_mem (techs : List String) (P : List Int) (rows : List Row) (v : Value) :
    v ∈ resolveLocIds P (fetchTechRows techs rows) ↔
      ∃ r ∈ rows, providerMatch P r = true ∧ techMatch techs r = true ∧
        rowGet r "location_id" = some v := by
  unfold resolveLocIds fetchTechRows
  rw [List.mem_dedup, List.mem_filterMap]
  constructor
  · rintro ⟨r, hr, hloc⟩
    rw [List.mem_filter] at hr
    obtain ⟨hr1, hprov⟩ := hr
    rw [List.mem_filter] at hr1
    obtain ⟨hmem, htech⟩ := hr1
    exact ⟨r, hmem, hprov, htech, hloc⟩
  · rintro ⟨r, hmem, hprov, htech, hloc⟩
    exact ⟨r, List.mem_filter.mpr ⟨List.mem_filter.mpr ⟨hmem, htech⟩, hprov⟩, hloc⟩

/-- C5 counterexample: a concrete anchor-provider row with a technology outside
the default triple is dropped by the secondary fetch, so resolution with no
technology subset is not the distinct anchor locations of the input rows. -/
theorem claim_C5_counterexample :
    locationSetResolution none [111] [exWirelessRow] ≠ resolveLocIds [111] [exWirelessRow] := by
  decide

/-- C5 amended: with no technology subset, location-set resolution yields
exactly the distinct `location_id` values of the rows whose `provider_id` is
among the anchors AND whose `technology_code_desc` is in the default triple
Cable / Copper / Fiber to the Premises (the output is deduplicated). -/
theorem claim_C5_resolution_amended (rows : List Row) (P : List Int) (v : Value) :
    v ∈ locationSetResolution none P rows ↔
      ∃ r ∈ rows, providerMatch P r = true ∧ techMatch defaultTechTriple r = true ∧
        rowGet r "location_id" = some v :=
  resolution_mem defaultTechTriple P rows v

/-- C6 counterexample: a technology subset outside the default triple adds a
location that resolution with no subset does not contain, so the subset
relation of the claim fails. -/
theorem claim_C6_counterexample :
    Value.s "A" ∈ locationSetResolution (some ["Licensed Fixed Wireless"]) [111] [exWirelessRow]
      ∧ Value.s "A" ∉ locationSetResolution none [111] [exWirelessRow] := by decide

/-- C6 amended: resolving with a technology subset contained in the default
triple yields a subset of the no-subset resolution (the claim holds whenever
the chosen subset lies inside Cable / Copper / Fiber to the Premises, which is
what the no-subset fetch downloads). -/
theorem claim_C6_subset_amended (rows : List Row) (P : List Int) (T : List String)
    (hT : T ⊆ defaultTechTriple) :
    locationSetResolution (some T) P rows ⊆ locationSetResolution none P rows := by
  intro v hv
  obtain ⟨r, hmem, hprov, htech, hloc⟩ := (resolution_mem T P rows v).mp hv
  refine (resolution_mem defaultTechTriple P rows v).mpr ⟨r, hmem, hprov, ?_, hloc⟩
  unfold techMatch at htech ⊢
  cases htv : rowGet r "technology_code_desc" with
  | none => rw [htv] at htech; exact absurd htech (by simp)
  | some w =>
    rw [htv] at htech
    cases w with
    | i m => simp at htech
    | s t =>
      have ht : t ∈ T := by simpa using htech
      simpa using hT ht

/-- Witness for C6's amended statement with the subset Cable of the triple. -/
theorem claim_C6_witness :
    locationSetResolution (some ["Cable"]) [111] [exCableRow] ⊆
      locationSetResolution none [111] [exCableRow] :=
  claim_C6_subset_amended [exCableRow] [111] ["Cable"] (by decide)

/-- C8: with the residential flag set and the `business_residential_code`
column present (and every row carrying a value for it), the residential filter
returns the input frame with exactly the rows whose code equals "B" dropped
and every other row kept. -/
theorem claim_C8_residential_filter (df : Frame)
    (h1 : "business_residential_code" ∈ df.cols)
    (h2 : ∀ r ∈ df.rows, (rowGet r "business_residential_code").isSome = true) :
    residentialFilter true df =
      Except.ok ⟨df.cols, df.rows.filter
        (fun r => decide (rowGet r "business_residential_code" ≠ some (Value.s "B")))⟩ := by
  have hrows : df.rows.filter (fun r =>
      match rowGet r "business_residential_code" with
      | some v => decide (v ≠ Value.s "B")
      | none => false) =
      df.rows.filter (fun r => decide (rowGet r "business_residential_code" ≠ some (Value.s "B"))) := by
    apply List.filter_congr
    intro r hr
    have hs := h2 r hr
    cases hv : rowGet r "business_residential_code" with
    | none => rw [hv] at hs; simp at hs
    | some v => simp
  show Frame.filterCol df "business_residential_code" (fun v => decide (v ≠ Value.s "B")) = _
  unfold Frame.filterCol
  rw [if_pos h1, hrows]

/-- Witness for C8 at a concrete frame with business, residential, and other
codes: exactly the "B" row is dropped. -/
theorem claim_C8_witness :
    residentialFilter true exFrameC8 =
      Except.ok ⟨exFrameC8.cols, exFrameC8.rows.filter
        (fun r => decide (rowGet r "business_residential_code" ≠ some (Value.s "B")))⟩ :=
  claim_C8_residential_filter exFrameC8 (by decide) (by decide)

/-- C10: with the residential flag set and a non-empty anchor list, the
residential filter runs on the secondary footprint rows before the location
set is derived, so a location the anchors serve only through business-only
rows is excluded from the resolved set and no surviving primary row carries
that location. -/
theorem claim_C10_residential_scoping (P : List Int) (primary secondary : List Row)
    (L : Value) (hP : P ≠ [])
    (hB : ∀ r ∈ secondary, providerMatch P r = true → rowGet r "location_id" = some L →
      rowGet r "business_residential_code" = some (Value.s "B")) :
    L ∉ (applyScopeFilters true P primary secondary).filterMap
      (fun r => rowGet r "location_id") := by
  intro hmem
  rw [List.mem_filterMap] at hmem
  obtain ⟨r, hr, hloc⟩ := hmem
  simp only [applyScopeFilters, if_neg hP, if_pos rfl] at hr
  rw [List.mem_filter] at hr
  obtain ⟨hr1, hr2⟩ := hr
  unfold locMember at hr2
  rw [hloc] at hr2
  have hLmem : L ∈ resolveLocIds P (rowsResiFilter secondary) := by
    simpa using hr2
  unfold resolveLocIds at hLmem
  rw [List.mem_dedup, List.mem_filterMap] at hLmem
  obtain ⟨r2, hr2mem, hr2loc⟩ := hLmem
  rw [List.mem_filter] at hr2mem
  obtain ⟨hr2a, hr2prov⟩ := hr2mem
  unfold rowsResiFilter at hr2a
  rw [List.mem_filter] at hr2a
  obtain ⟨hr2sec, hr2keep⟩ := hr2a
  have hbrc := hB r2 hr2sec hr2prov hr2loc
  unfold resiKeep at hr2keep
  rw [hbrc] at hr2keep
  simp at hr2keep

/-- Witness for C10: anchor 111 serves location A only via a business-only row,
so the residential primary row at A is dropped. -/
theorem claim_C10_witness :
    Value.s "A" ∉ (applyScopeFilters true [111] exPrimaryC10 exSecondaryC10).filterMap
      (fun r => rowGet r "location_id") :=
  claim_C10_residential_scoping [111] exPrimaryC10 exSecondaryC10 (Value.s "A")
    (by decide) (by decide)
